import Mathlib

/-!
Verification development for the `identity-test-bridge` session broker
(`src/bridge.ts`, current variant: the `Bridge` class keyed by `dacName`,
together with `src/utils.ts`).  The TypeScript operations are shallowly
embedded as pure Lean functions over an explicit bridge state; asynchronous
collaborators that live outside this repository (the `post-me` handshake, the
`skynet-interface-utils` storage-event listeners, the provider frame's remote
methods, `skynet-js`'s `getSkylinkUrl`) enter as explicit outcome parameters,
and observable interactions are recorded in an effect trace.
-/

/-- JSON values, used to model data that crosses `JSON.stringify` and
`JSON.parse` (the platform serializer, external to the repository) as well as
the dynamically typed argument lists of remote calls. -/
inductive JsonValue where
  | null : JsonValue
  | bool : Bool → JsonValue
  | num : Int → JsonValue
  | str : String → JsonValue
  | arr : List JsonValue → JsonValue
  | obj : List (String × JsonValue) → JsonValue
deriving Repr

/-- SkappInfo from `skynet-interface-utils`, per the spec data model:
identity of the host page. -/
structure SkappInfo where
  name : String
  domain : String
deriving DecidableEq, Repr

/-- Modelled from the spec: `ProviderMetadata` is declared in the external
`skynet-interface-utils` package, which is not part of this repository.  The
spec data model gives it as `{ name: string, url: string,
relativeConnectorPath?: string, connectorName?: string, connectorW?: number,
connectorH?: number }`; optional fields are embedded as `Option`. -/
structure ProviderMetadata where
  name : String
  url : String
  relativeConnectorPath : Option String
  connectorName : Option String
  connectorW : Option Int
  connectorH : Option Int
deriving DecidableEq, Repr

/-- JSON encoding of a `ProviderMetadata`, following what `JSON.stringify`
produces on such an object: optional fields that are `undefined` are omitted
from the serialized object. -/
def encodeProviderMetadata (m : ProviderMetadata) : JsonValue :=
  JsonValue.obj
    ([("name", JsonValue.str m.name), ("url", JsonValue.str m.url)]
      ++ (match m.relativeConnectorPath with
          | some s => [("relativeConnectorPath", JsonValue.str s)]
          | none => [])
      ++ (match m.connectorName with
          | some s => [("connectorName", JsonValue.str s)]
          | none => [])
      ++ (match m.connectorW with
          | some n => [("connectorW", JsonValue.num n)]
          | none => [])
      ++ (match m.connectorH with
          | some n => [("connectorH", JsonValue.num n)]
          | none => []))

/-- Looks up a field of a JSON object (JS member access on a parsed object);
a missing field is `undefined`, i.e. `none`. -/
def JsonValue.getField : JsonValue → String → Option JsonValue
  | JsonValue.obj fields, k =>
    (fields.find? (fun p => p.1 == k)).map (fun p => p.2)
  | _, _ => none

/-- Extracts a string-valued field, as the TS type assertion
`const result: ProviderMetadata = JSON.parse(metadata)` lets callers read
`result.name` etc. as strings. -/
def JsonValue.getStr (j : JsonValue) (k : String) : Option String :=
  match j.getField k with
  | some (JsonValue.str s) => some s
  | _ => none

/-- Extracts a number-valued field. -/
def JsonValue.getNum (j : JsonValue) (k : String) : Option Int :=
  match j.getField k with
  | some (JsonValue.num n) => some n
  | _ => none

/-- Decoding of `ProviderMetadata` from parsed JSON: the TS code performs no
validation (a bare type assertion), so this is just field projection of the
parsed object, with absent optional fields coming back `undefined`. -/
def decodeProviderMetadata (j : JsonValue) : Option ProviderMetadata :=
  match j.getStr "name", j.getStr "url" with
  | some name, some url =>
    some
      { name := name
        url := url
        relativeConnectorPath := j.getStr "relativeConnectorPath"
        connectorName := j.getStr "connectorName"
        connectorW := j.getNum "connectorW"
        connectorH := j.getNum "connectorH" }
  | _, _ => none

/-- Web-storage contents: an association list from keys to stored values.
Values are kept at the JSON level: `localStorage.setItem(k, JSON.stringify(v))`
followed by `JSON.parse` of `getItem(k)` is modelled as storing and retrieving
the JSON value itself, the string round trip being the platform serializer. -/
def Store := List (String × JsonValue)
deriving Repr

/-- Reads a key from storage (`localStorage.getItem`), `null` when absent. -/
def Store.getItem (st : Store) (k : String) : Option JsonValue :=
  ((st : List (String × JsonValue)).find? (fun p => p.1 == k)).map (fun p => p.2)

/-- Writes a key (`localStorage.setItem`), replacing any previous value. -/
def Store.setItem (st : Store) (k : String) (v : JsonValue) : Store :=
  (k, v) :: (st : List (String × JsonValue)).filter (fun p => p.1 ≠ k)

/-- Removes a key (`localStorage.removeItem`). -/
def Store.removeItem (st : Store) (k : String) : Store :=
  (st : List (String × JsonValue)).filter (fun p => p.1 ≠ k)

theorem Store.getItem_setItem_same (st : Store) (k : String) (v : JsonValue) :
    (st.setItem k v).getItem k = some v := by
  simp [Store.getItem, Store.setItem, List.find?]

/-- Round trip of the metadata encoding: decoding what was encoded restores
the record, for every combination of present and absent optional fields. -/
theorem decode_encode_providerMetadata (m : ProviderMetadata) :
    decodeProviderMetadata (encodeProviderMetadata m) = some m := by
  rcases m with ⟨name, url, rcp, cn, cw, ch⟩
  rcases rcp with _ | s₁ <;> rcases cn with _ | s₂ <;>
    rcases cw with _ | n₁ <;> rcases ch with _ | n₂ <;>
    simp [decodeProviderMetadata, encodeProviderMetadata, JsonValue.getStr,
      JsonValue.getNum, JsonValue.getField, List.find?]

/-- Rejection values observed by the host.  `error` is a thrown
`new Error(msg)`; `typeError` is a runtime `TypeError` raised by an invalid
member access; `raw` is a non-`Error` rejection value (the storage-event
listeners reject bare strings). -/
inductive JsError where
  | error : String → JsError
  | typeError : String → JsError
  | raw : String → JsError
deriving DecidableEq, Repr

deriving instance DecidableEq for Except

/-- String coercion of a rejection value, as a JS template literal
(`Error: msg` for `Error` objects, the bare string otherwise). -/
def JsError.display : JsError → String
  | JsError.error m => "Error: " ++ m
  | JsError.typeError m => "TypeError: " ++ m
  | JsError.raw m => m

/-- Provider iframe handle.  `createIframe` (`src/utils.ts`) appends the frame
to `document.body` only when `document.readyState` is `complete` or
`interactive`; otherwise attachment is deferred to `DOMContentLoaded`, so the
frame can exist while not attached to the document. -/
structure Frame where
  src : String
  attached : Bool
deriving DecidableEq, Repr

/-- Normalization done by `createIframe`: prefix `https://` when the scheme
is absent. -/
def ensureHttpsPrefixed (srcUrl : String) : String :=
  if srcUrl.startsWith "https://" then srcUrl else "https://" ++ srcUrl

/-- Embeds `createIframe` from `src/utils.ts` (the current bridge imports the
identical helper from `skynet-interface-utils` with an extra name argument
that does not affect the frame): the named document-readiness determines
whether the frame is attached on return. -/
def createIframe (srcUrl : String) (documentReady : Bool) : Frame :=
  { src := ensureHttpsPrefixed srcUrl, attached := documentReady }

/-- Value tracked for the `post-me` connection handle owned by a session. -/
structure Channel where
  closed : Bool
deriving DecidableEq, Repr

/-- ProviderInfo from `src/bridge.ts`: the session record kept per dac name
(connection plus metadata plus child frame). -/
structure ProviderInfo where
  connection : Channel
  metadata : ProviderMetadata
  childFrame : Frame
deriving DecidableEq, Repr

/-- Mutable state of the `Bridge` object: the recorded host identity, the dac
map (session registry) and the web storage (`none` models an environment
where `localStorage` is unavailable). -/
structure BridgeState where
  skappInfo : Option SkappInfo
  dacs : List (String × ProviderInfo)
  localStorage : Option Store

/-- Lookup in the dac map (`this.dacs.get(dacName)`). -/
def dacsGet (dacs : List (String × ProviderInfo)) (n : String) : Option ProviderInfo :=
  (dacs.find? (fun p => p.1 == n)).map (fun p => p.2)

/-- Insertion into the dac map (`this.dacs.set(dacName, info)`). -/
def dacsSet (dacs : List (String × ProviderInfo)) (n : String) (i : ProviderInfo) :
    List (String × ProviderInfo) :=
  (n, i) :: dacs.filter (fun p => p.1 ≠ n)

/-- Deletion from the dac map (`this.dacs.delete(dacName)`). -/
def dacsDelete (dacs : List (String × ProviderInfo)) (n : String) :
    List (String × ProviderInfo) :=
  dacs.filter (fun p => p.1 ≠ n)

/-- Observable interactions of the bridge with its collaborators: signaling
writes for the router (`emitStorageEvent`), frame creation, remote method
calls on the provider channel, frame detachment and channel closing, and
console logging. -/
inductive Effect where
  | emitStorageEvent : String → String → JsonValue → Effect
  | createFrame : String → Effect
  | remoteCall : String → List JsonValue → Effect
  | detachFrame : String → Effect
  | closeChannel : Effect
  | consoleLog : String → Effect
deriving Repr

/-- Storage key for a dac's persisted provider record
(`protected dacStorageKey(dacName: string): string`).  Note the source
message templates quote the name with apostrophes; string literals here drop
the quote characters only. -/
def dacStorageKey (dacName : String) : String :=
  "dac:" ++ dacName

/-- Embeds `saveStoredProvider`: warns and does nothing when storage is
unavailable, otherwise writes the serialized metadata under the dac key. -/
def saveStoredProvider (st : BridgeState) (dacName : String) (m : ProviderMetadata) :
    BridgeState × List Effect :=
  match st.localStorage with
  | none => (st, [Effect.consoleLog "WARNING: localStorage disabled, provider not stored"])
  | some store =>
    ({ st with localStorage := some (store.setItem (dacStorageKey dacName) (encodeProviderMetadata m)) }, [])

/-- Embeds `checkForStoredProvider`: `null` when storage is unavailable or the
key is absent, otherwise the parse of the stored string, read back as a
`ProviderMetadata` through the TS type assertion. -/
def checkForStoredProvider (st : BridgeState) (dacName : String) : Option ProviderMetadata :=
  match st.localStorage with
  | none => none
  | some store =>
    match store.getItem (dacStorageKey dacName) with
    | none => none
    | some j => decodeProviderMetadata j

/-- Embeds `clearStoredProvider`: warns and does nothing when storage is
unavailable, otherwise removes the dac key. -/
def clearStoredProvider (st : BridgeState) (dacName : String) : BridgeState × List Effect :=
  match st.localStorage with
  | none => (st, [Effect.consoleLog "WARNING: localStorage disabled"])
  | some store =>
    ({ st with localStorage := some (store.removeItem (dacStorageKey dacName)) }, [])

/-- JSON form of the host identity, as sent over a remote call. -/
def encodeSkappInfo (s : SkappInfo) : JsonValue :=
  JsonValue.obj [("name", JsonValue.str s.name), ("domain", JsonValue.str s.domain)]

/-- Embeds `protected async call(dacName, method, ...args)`.  The parameter
`args` is the collected rest argument list; on a hit the provider's remote
method named call receives the method name and that collected array as its
two positional arguments (`remoteHandle().call("call", method, args)`), and
the remote result is an outcome parameter.  The inner `!status.metadata`
guard cannot fire on sessions built by `launchProvider`, which always stores
metadata. -/
def call (st : BridgeState) (dacName : String) (method : String) (args : List JsonValue)
    (remoteResult : JsonValue) : Except JsError JsonValue × List Effect :=
  match dacsGet st.dacs dacName with
  | none => (Except.error (JsError.error ("Dac " ++ dacName ++ " not found")), [])
  | some _status =>
    (Except.ok remoteResult,
      [Effect.remoteCall "call" [JsonValue.str method, JsonValue.arr args]])

/-- Embeds the facade closure set in the constructor:
`call: async (dacName, method, ...args) => this.call(dacName, method, args)`.
The closure passes the collected array `args` as one positional argument, so
the rest parameter of the inner method collects the one-element list holding
that array. -/
def facadeCall (st : BridgeState) (dacName : String) (method : String)
    (args : List JsonValue) (remoteResult : JsonValue) :
    Except JsError JsonValue × List Effect :=
  call st dacName method [JsonValue.arr args] remoteResult

/-- Embeds `logout`.  The provider's `disconnect` outcome is a parameter;
its failure is logged and swallowed.  Then the session is deleted, the stored
record cleared, and the frame detached — via
`i.childFrame.parentNode!.removeChild(i.childFrame)`, whose non-null
assertion is erased at runtime: for an unattached frame `parentNode` is null,
`removeChild` on null throws a `TypeError`, and `connection.close()` is never
reached. -/
def logout (st : BridgeState) (dacName : String) (disconnectResult : Except JsError Unit) :
    Except JsError Unit × BridgeState × List Effect :=
  match dacsGet st.dacs dacName with
  | none => (Except.error (JsError.error ("Dac " ++ dacName ++ " already loaded")), st, [])
  | some i =>
    let fxDisconnect :=
      Effect.remoteCall "disconnect" [] ::
        (match disconnectResult with
         | Except.error e => [Effect.consoleLog e.display]
         | Except.ok _ => [])
    let st₁ := { st with dacs := dacsDelete st.dacs dacName }
    let cleared := clearStoredProvider st₁ dacName
    if i.childFrame.attached then
      (Except.ok (), cleared.1,
        fxDisconnect ++ cleared.2 ++ [Effect.detachFrame i.childFrame.src, Effect.closeChannel])
    else
      (Except.error (JsError.typeError "Cannot read property removeChild of null"),
        cleared.1, fxDisconnect ++ cleared.2)

/-- Embeds `loginSilent`.  After the already-loaded guard and the stored
record lookup, the source launches the provider at
`providerMetadata.info.domain`; `ProviderMetadata` (spec data model, §3) has
no `info` member, so the member access yields undefined and reading `.domain`
from it throws a `TypeError` before `launchProvider` is entered — the
`connectSilent` branch and its generic wrapping error are unreachable. -/
def loginSilent (st : BridgeState) (dacName : String) :
    Except JsError Unit × BridgeState × List Effect :=
  if (dacsGet st.dacs dacName).isSome then
    (Except.error (JsError.error ("Dac " ++ dacName ++ " already loaded")), st, [])
  else
    match checkForStoredProvider st dacName with
    | none =>
      (Except.error (JsError.error ("Stored provider for dac " ++ dacName ++ " not found")),
        st, [])
    | some _providerMetadata =>
      (Except.error (JsError.typeError "Cannot read property domain of undefined"), st, [])

/-- Outcomes of the external collaborators consulted while launching and
connecting a provider: document readiness at `createIframe` time, whether the
`post-me` `ParentHandshake` succeeds within its retry budget, the result of
the provider's `getProviderMetadata` call, and the result of its
`connectPopup` call. -/
structure ProviderEnv where
  documentReady : Bool
  handshakeOk : Bool
  metadataResult : Except JsError ProviderMetadata
  connectPopupResult : Except JsError Unit

/-- Embeds `launchProvider`: create the iframe, run the handshake (modelled
from the spec: exhausting the retry budget surfaces a handshake-timeout
error), then fetch the provider's self-reported metadata. -/
def launchProvider (providerUrl : String) (env : ProviderEnv) :
    Except JsError ProviderInfo × List Effect :=
  let frame := createIframe providerUrl env.documentReady
  if env.handshakeOk then
    match env.metadataResult with
    | Except.error e =>
      (Except.error e, [Effect.createFrame frame.src, Effect.remoteCall "getProviderMetadata" []])
    | Except.ok m =>
      (Except.ok { connection := { closed := false }, metadata := m, childFrame := frame },
        [Effect.createFrame frame.src, Effect.remoteCall "getProviderMetadata" []])
  else
    (Except.error (JsError.error "Handshake timed out"), [Effect.createFrame frame.src])

/-- Embeds the array splice in `formatProviderUrl`:
`providerUrlArr.splice(1, 1)` removes the dot-separated segment at index 1
when there is one. -/
def spliceOutSecond (xs : List String) : List String :=
  match xs with
  | a :: _ :: rest => a :: rest
  | other => other

/-- Embeds `formatProviderUrl`; `client.getSkylinkUrl` (external `skynet-js`)
is an oracle parameter. -/
def formatProviderUrl (getSkylinkUrl : String → String) (providerUrl : String) : String :=
  String.intercalate "." (spliceOutSecond ((getSkylinkUrl providerUrl).splitOn "."))

/-- Modelled from the spec: the first settlement of the three-way race run by
the `skynet-interface-utils` listeners in `loginPopup` — the provider-URL
listener (`success-router`), the router-lifecycle listener (`event-router` /
`error-router`), and the liveness monitor timeout.  The repository's inlined
precursor of the listener rejects the string `Window was closed` on
`event-router`. -/
inductive RouterSignal where
  | success : String → RouterSignal
  | closed : RouterSignal
  | routerError : String → RouterSignal
  | timeout : RouterSignal
deriving DecidableEq, Repr

/-- Embeds `loginPopup`.  The executor checks the two preconditions first; a
failure there is caught by the catch block, which emits
`emitStorageEvent("bridge", "error", err)` to the router before rejecting
with the error (the three listeners registered earlier are torn down in the
`finally` without ever firing).  When the router-lifecycle listener or the
pinger settles first, the corresponding background `catch` rejects the outer
promise directly — with no emission — and the provider is never launched.  On
a provider address, the bridge formats it, launches the provider, reports to
the router (`bridge-metadata` success, or `bridge` error on launch failure),
calls `connectPopup`, and on success registers and persists the session. -/
def loginPopup (st : BridgeState) (dacName : String) (signal : RouterSignal)
    (env : ProviderEnv) (getSkylinkUrl : String → String) :
    Except JsError Unit × BridgeState × List Effect :=
  match st.skappInfo with
  | none =>
    let e := JsError.error "getBridgeMetadata() with skappInfo was not called"
    (Except.error e, st, [Effect.emitStorageEvent "bridge" "error" (JsonValue.str e.display)])
  | some si =>
    if (dacsGet st.dacs dacName).isSome then
      let e := JsError.error ("Dac " ++ dacName ++ " already loaded")
      (Except.error e, st, [Effect.emitStorageEvent "bridge" "error" (JsonValue.str e.display)])
    else
      match signal with
      | RouterSignal.closed => (Except.error (JsError.raw "Window was closed"), st, [])
      | RouterSignal.routerError msg => (Except.error (JsError.raw msg), st, [])
      | RouterSignal.timeout => (Except.error (JsError.raw "Router timed out"), st, [])
      | RouterSignal.success url =>
        let providerUrl := formatProviderUrl getSkylinkUrl url
        match launchProvider providerUrl env with
        | (Except.error e, fx) =>
          (Except.error e, st,
            fx ++ [Effect.emitStorageEvent "bridge" "error" (JsonValue.str e.display)])
        | (Except.ok info, fx) =>
          let fx₂ := fx
            ++ [Effect.emitStorageEvent "bridge-metadata" "success"
                  (encodeProviderMetadata info.metadata),
                Effect.remoteCall "connectPopup" [encodeSkappInfo si]]
          match env.connectPopupResult with
          | Except.error e =>
            (Except.error (JsError.error ("Could not login with user input: " ++ e.display)),
              st, fx₂)
          | Except.ok _ =>
            let st₁ := { st with dacs := dacsSet st.dacs dacName info }
            let saved := saveStoredProvider st₁ dacName info.metadata
            (Except.ok (), saved.1, fx₂ ++ saved.2)

/-- BridgeMetadata, per the spec: static configuration fixed at construction
(shape from `src/index.ts`). -/
structure BridgeMetadata where
  minimumInterface : List (String × List String)
  relativeRouterUrl : String
  routerName : String
  routerW : Int
  routerH : Int
deriving DecidableEq, Repr

/-- Embeds `getBridgeMetadata(skappInfo)`: records the host identity and
returns the static bridge metadata. -/
def getBridgeMetadata (bm : BridgeMetadata) (st : BridgeState) (si : SkappInfo) :
    BridgeMetadata × BridgeState :=
  (bm, { st with skappInfo := some si })

/-! Concrete fixtures used to instantiate the theorems below. -/

/-- Host identity fixture. -/
def skappExample : SkappInfo :=
  { name := "testskapp", domain := "testskapp.example.com" }

/-- Provider metadata fixture with every optional field present. -/
def metadataExample : ProviderMetadata :=
  { name := "skyid"
    url := "skyid.example.com"
    relativeConnectorPath := some "connector.html"
    connectorName := some "SkyID Connector"
    connectorW := some 400
    connectorH := some 500 }

/-- Session fixture whose frame is attached to the document. -/
def attachedSessionExample : ProviderInfo :=
  { connection := { closed := false }
    metadata := metadataExample
    childFrame := { src := "https://skyid.example.com", attached := true } }

/-- Session fixture whose frame was created before `DOMContentLoaded`, hence
has no parent node. -/
def unattachedSessionExample : ProviderInfo :=
  { connection := { closed := false }
    metadata := metadataExample
    childFrame := { src := "https://skyid.example.com", attached := false } }

/-- Collaborator outcomes in which every external step succeeds. -/
def envExample : ProviderEnv :=
  { documentReady := true
    handshakeOk := true
    metadataResult := Except.ok metadataExample
    connectPopupResult := Except.ok () }

/-- Bridge state before `getBridgeMetadata` was called. -/
def stNoSkappInfo : BridgeState :=
  { skappInfo := none, dacs := [], localStorage := some [] }

/-- Bridge state with host identity recorded and nothing loaded or stored. -/
def stReady : BridgeState :=
  { skappInfo := some skappExample, dacs := [], localStorage := some [] }

/-- Bridge state with a stored provider record but no active session. -/
def stStored : BridgeState :=
  { skappInfo := some skappExample, dacs := []
    localStorage := some [("dac:identity", encodeProviderMetadata metadataExample)] }

/-- Bridge state with a stored provider record and no recorded host
identity. -/
def stNoSkappStored : BridgeState :=
  { skappInfo := none, dacs := []
    localStorage := some [("dac:identity", encodeProviderMetadata metadataExample)] }

/-- Bridge state with an active session whose frame is attached. -/
def stLoaded : BridgeState :=
  { skappInfo := some skappExample
    dacs := [("identity", attachedSessionExample)]
    localStorage := some [("dac:identity", encodeProviderMetadata metadataExample)] }

/-- Bridge state with an active session whose frame is unattached. -/
def stLoadedUnattached : BridgeState :=
  { skappInfo := some skappExample
    dacs := [("identity", unattachedSessionExample)]
    localStorage := some [("dac:identity", encodeProviderMetadata metadataExample)] }

/-! Helper lemmas about the registry map and the store. -/

theorem dacsGet_dacsDelete_same (dacs : List (String × ProviderInfo)) (n : String) :
    dacsGet (dacsDelete dacs n) n = none := by
  induction dacs with
  | nil => rfl
  | cons p rest ih =>
    by_cases h : p.1 = n <;>
      simp [dacsDelete, dacsGet, List.filter_cons, h, List.find?] at ih ⊢

theorem Store.getItem_removeItem_same (st : Store) (k : String) :
    (st.removeItem k).getItem k = none := by
  induction st with
  | nil => rfl
  | cons p rest ih =>
    by_cases h : p.1 = k <;>
      simp [Store.removeItem, Store.getItem, List.filter_cons, h, List.find?] at ih ⊢

/-- C5, counterexample.  The stored-provider operations do not use the key
`interface:` followed by the name: saving a record for the name `identity`
writes under the key `dac:identity`, which differs from
`interface:identity`. -/
theorem dacStorageKey_counterexample :
    (saveStoredProvider stReady "identity" metadataExample).1.localStorage
      = some [("dac:identity", encodeProviderMetadata metadataExample)]
    ∧ dacStorageKey "identity" ≠ "interface:identity" :=
  ⟨rfl, by decide⟩

/-- C5, amended.  For every interface name `n`, the key under which the
provider record is written by `saveStoredProvider`, read by
`checkForStoredProvider`, and removed by `clearStoredProvider` is exactly
the string `dac:` followed by `n` (not `interface:` followed by `n`). -/
theorem storage_operations_use_dac_key (n : String) (st : BridgeState) (store : Store)
    (m : ProviderMetadata) (h : st.localStorage = some store) :
    dacStorageKey n = "dac:" ++ n
    ∧ (saveStoredProvider st n m).1.localStorage
        = some (store.setItem ("dac:" ++ n) (encodeProviderMetadata m))
    ∧ checkForStoredProvider st n
        = (store.getItem ("dac:" ++ n)).bind decodeProviderMetadata
    ∧ (clearStoredProvider st n).1.localStorage
        = some (store.removeItem ("dac:" ++ n)) := by
  refine ⟨rfl, ?_, ?_, ?_⟩
  · simp [saveStoredProvider, h, dacStorageKey]
  · cases hg : store.getItem (dacStorageKey n) <;>
      simp [checkForStoredProvider, h, dacStorageKey] at hg ⊢ <;>
      simp [hg]
  · simp [clearStoredProvider, h, dacStorageKey]

/-- C5, witness for the amended theorem at the ready state and the name
`identity`. -/
theorem storage_operations_use_dac_key_witness :
    dacStorageKey "identity" = "dac:" ++ "identity"
    ∧ (saveStoredProvider stReady "identity" metadataExample).1.localStorage
        = some (Store.setItem [] ("dac:" ++ "identity") (encodeProviderMetadata metadataExample))
    ∧ checkForStoredProvider stReady "identity"
        = (Store.getItem [] ("dac:" ++ "identity")).bind decodeProviderMetadata
    ∧ (clearStoredProvider stReady "identity").1.localStorage
        = some (Store.removeItem [] ("dac:" ++ "identity")) :=
  storage_operations_use_dac_key "identity" stReady [] metadataExample rfl

/-- C8.  With storage available, persisting a `ProviderMetadata` for a name
and reading it back through `checkForStoredProvider` yields a record equal to
the original: the serialize/parse round trip is lossless. -/
theorem stored_provider_roundtrip (st : BridgeState) (n : String) (m : ProviderMetadata)
    (store : Store) (h : st.localStorage = some store) :
    checkForStoredProvider (saveStoredProvider st n m).1 n = some m := by
  simp [saveStoredProvider, h, checkForStoredProvider, Store.getItem_setItem_same,
    decode_encode_providerMetadata]

/-- C8, witness: round trip at the ready state for the name `identity` and
the metadata fixture. -/
theorem stored_provider_roundtrip_witness :
    checkForStoredProvider (saveStoredProvider stReady "identity" metadataExample).1 "identity"
      = some metadataExample :=
  stored_provider_roundtrip stReady "identity" metadataExample [] rfl

/-- C3.  Evaluation at the failing input: `logout` for a name with no active
session rejects and performs no side effects, but its rejection message reads
`Dac identity already loaded` — the message copied from the login guards —
rather than a not-found message (compare `call`, which throws
`Dac ... not found` for the same condition). -/
theorem logout_missing_session_rejects_already_loaded_message :
    logout stReady "identity" (Except.ok ())
      = (Except.error (JsError.error "Dac identity already loaded"), stReady, [])
    ∧ (logout stReady "identity" (Except.ok ())).1
        ≠ Except.error (JsError.error "Dac identity not found") :=
  ⟨rfl, by decide⟩

/-- C6.  Evaluation at the failing input: with a stored record whose `url`
field is `skyid.example.com`, `loginSilent` rejects with the `TypeError`
raised by the `providerMetadata.info.domain` access (`ProviderMetadata` has
no `info` member) and never creates a provider frame — in particular it never
launches the provider at the recorded `url`. -/
theorem loginSilent_stored_record_type_error :
    checkForStoredProvider stStored "identity" = some metadataExample
    ∧ loginSilent stStored "identity"
        = (Except.error (JsError.typeError "Cannot read property domain of undefined"),
            stStored, [])
    ∧ ∀ u, Effect.createFrame u ∉ (loginSilent stStored "identity").2.2 := by
  refine ⟨rfl, rfl, ?_⟩
  intro u h
  rw [show (loginSilent stStored "identity").2.2 = [] from rfl] at h
  exact List.not_mem_nil _ h

/-- C2, counterexample.  For a session whose frame is not attached to the
document, `logout` under a rejecting `disconnect` does not complete every
teardown step and resolve: it throws the `removeChild` `TypeError` and the
channel is never closed. -/
theorem logout_unattached_frame_counterexample :
    (logout stLoadedUnattached "identity" (Except.error (JsError.error "disconnect failed"))).1
      = Except.error (JsError.typeError "Cannot read property removeChild of null")
    ∧ Effect.closeChannel
        ∉ (logout stLoadedUnattached "identity"
            (Except.error (JsError.error "disconnect failed"))).2.2 := by
  refine ⟨rfl, ?_⟩
  intro h
  rw [show (logout stLoadedUnattached "identity"
        (Except.error (JsError.error "disconnect failed"))).2.2
      = [Effect.remoteCall "disconnect" [],
          Effect.consoleLog "Error: disconnect failed"] from rfl] at h
  simp at h

/-- C2, amended.  For every interface name with an active session whose frame
is attached to the document, a rejecting provider `disconnect` still lets
`logout` complete every teardown step and resolve: the session is removed
from the registry, the persisted record is cleared, the frame is detached,
the channel is closed, and the disconnect failure is logged and swallowed. -/
theorem logout_teardown_despite_disconnect_failure (st : BridgeState) (n : String)
    (i : ProviderInfo) (e : JsError)
    (hs : dacsGet st.dacs n = some i) (ha : i.childFrame.attached = true) :
    (logout st n (Except.error e)).1 = Except.ok ()
    ∧ dacsGet (logout st n (Except.error e)).2.1.dacs n = none
    ∧ checkForStoredProvider (logout st n (Except.error e)).2.1 n = none
    ∧ Effect.detachFrame i.childFrame.src ∈ (logout st n (Except.error e)).2.2
    ∧ Effect.closeChannel ∈ (logout st n (Except.error e)).2.2
    ∧ Effect.consoleLog e.display ∈ (logout st n (Except.error e)).2.2 := by
  cases hl : st.localStorage <;>
    simp [logout, hs, ha, clearStoredProvider, hl, dacsGet_dacsDelete_same,
      checkForStoredProvider, Store.getItem_removeItem_same]

/-- C2, witness for the amended theorem: a loaded state with an attached
frame and a rejecting disconnect. -/
theorem logout_teardown_despite_disconnect_failure_witness :
    (logout stLoaded "identity" (Except.error (JsError.error "disconnect failed"))).1
      = Except.ok ()
    ∧ dacsGet (logout stLoaded "identity"
        (Except.error (JsError.error "disconnect failed"))).2.1.dacs "identity" = none
    ∧ checkForStoredProvider (logout stLoaded "identity"
        (Except.error (JsError.error "disconnect failed"))).2.1 "identity" = none
    ∧ Effect.detachFrame attachedSessionExample.childFrame.src
        ∈ (logout stLoaded "identity" (Except.error (JsError.error "disconnect failed"))).2.2
    ∧ Effect.closeChannel
        ∈ (logout stLoaded "identity" (Except.error (JsError.error "disconnect failed"))).2.2
    ∧ Effect.consoleLog (JsError.error "disconnect failed").display
        ∈ (logout stLoaded "identity" (Except.error (JsError.error "disconnect failed"))).2.2 :=
  logout_teardown_despite_disconnect_failure stLoaded "identity" attachedSessionExample
    (JsError.error "disconnect failed") rfl rfl

/-- C10.  For every session whose frame has no parent node, `logout` (for any
disconnect outcome) throws after the session has been removed from the
registry and the persisted record cleared, and before the channel is closed:
the registry lookup and the stored record both come back empty while no
close — and no detach — effect occurs, and the result is the `removeChild`
`TypeError`. -/
theorem logout_unattached_frame_partial_teardown (st : BridgeState) (n : String)
    (i : ProviderInfo) (d : Except JsError Unit)
    (hs : dacsGet st.dacs n = some i) (ha : i.childFrame.attached = false) :
    (logout st n d).1
      = Except.error (JsError.typeError "Cannot read property removeChild of null")
    ∧ dacsGet (logout st n d).2.1.dacs n = none
    ∧ checkForStoredProvider (logout st n d).2.1 n = none
    ∧ Effect.closeChannel ∉ (logout st n d).2.2
    ∧ ∀ u, Effect.detachFrame u ∉ (logout st n d).2.2 := by
  cases hl : st.localStorage <;> cases d <;>
    simp [logout, hs, ha, clearStoredProvider, hl, dacsGet_dacsDelete_same,
      checkForStoredProvider, Store.getItem_removeItem_same]

/-- C10, witness: the unattached-frame state with a succeeding disconnect. -/
theorem logout_unattached_frame_partial_teardown_witness :
    (logout stLoadedUnattached "identity" (Except.ok ())).1
      = Except.error (JsError.typeError "Cannot read property removeChild of null")
    ∧ dacsGet (logout stLoadedUnattached "identity" (Except.ok ())).2.1.dacs "identity" = none
    ∧ checkForStoredProvider (logout stLoadedUnattached "identity" (Except.ok ())).2.1
        "identity" = none
    ∧ Effect.closeChannel ∉ (logout stLoadedUnattached "identity" (Except.ok ())).2.2
    ∧ ∀ u, Effect.detachFrame u ∉ (logout stLoadedUnattached "identity" (Except.ok ())).2.2 :=
  logout_unattached_frame_partial_teardown stLoadedUnattached "identity"
    unattachedSessionExample (Except.ok ()) rfl rfl

/-- C1, counterexample.  A precondition failure is not free of side effects
and is not always a precondition rejection: `loginPopup` with no recorded
host identity emits an error message to the router over the signaling
channel before rejecting, and `loginSilent` with no recorded host identity
but a stored record proceeds past its guards and rejects with the
`info.domain` `TypeError` rather than a precondition error. -/
theorem login_precondition_side_effect_counterexample :
    (loginPopup stNoSkappInfo "identity" RouterSignal.timeout envExample id).2.2
      = [Effect.emitStorageEvent "bridge" "error"
          (JsonValue.str "Error: getBridgeMetadata() with skappInfo was not called")]
    ∧ (loginSilent stNoSkappStored "identity").1
        = Except.error (JsError.typeError "Cannot read property domain of undefined") :=
  ⟨rfl, rfl⟩

/-- C1, amended.  On a failed precondition, `loginPopup` rejects with the
precondition error, leaves the state unchanged and creates no frame or
channel, but its only side effect is exactly one error emission to the
router signaling channel; `loginSilent` checks only the already-loaded
precondition (a missing host identity is not checked) and on that failure
rejects with the precondition error and performs no side effects at all. -/
theorem login_precondition_failure_behavior (st : BridgeState) (n : String)
    (sig : RouterSignal) (env : ProviderEnv) (g : String → String) :
    (st.skappInfo = none →
      loginPopup st n sig env g
        = (Except.error (JsError.error "getBridgeMetadata() with skappInfo was not called"), st,
            [Effect.emitStorageEvent "bridge" "error"
              (JsonValue.str
                (JsError.error "getBridgeMetadata() with skappInfo was not called").display)]))
    ∧ (∀ si, st.skappInfo = some si → (dacsGet st.dacs n).isSome = true →
      loginPopup st n sig env g
        = (Except.error (JsError.error ("Dac " ++ n ++ " already loaded")), st,
            [Effect.emitStorageEvent "bridge" "error"
              (JsonValue.str (JsError.error ("Dac " ++ n ++ " already loaded")).display)]))
    ∧ ((dacsGet st.dacs n).isSome = true →
      loginSilent st n
        = (Except.error (JsError.error ("Dac " ++ n ++ " already loaded")), st, [])) := by
  refine ⟨?_, ?_, ?_⟩
  · intro h
    simp [loginPopup, h]
  · intro si h1 h2
    simp [loginPopup, h1, h2]
  · intro h
    simp [loginSilent, h]

/-- C1, witness for the amended theorem: all three precondition branches
instantiated at concrete states. -/
theorem login_precondition_failure_behavior_witness :
    loginPopup stNoSkappInfo "identity" RouterSignal.closed envExample id
      = (Except.error (JsError.error "getBridgeMetadata() with skappInfo was not called"),
          stNoSkappInfo,
          [Effect.emitStorageEvent "bridge" "error"
            (JsonValue.str
              (JsError.error "getBridgeMetadata() with skappInfo was not called").display)])
    ∧ loginPopup stLoaded "identity" RouterSignal.closed envExample id
        = (Except.error (JsError.error ("Dac " ++ "identity" ++ " already loaded")), stLoaded,
            [Effect.emitStorageEvent "bridge" "error"
              (JsonValue.str
                (JsError.error ("Dac " ++ "identity" ++ " already loaded")).display)])
    ∧ loginSilent stLoaded "identity"
        = (Except.error (JsError.error ("Dac " ++ "identity" ++ " already loaded")),
            stLoaded, []) :=
  ⟨(login_precondition_failure_behavior stNoSkappInfo "identity" RouterSignal.closed
      envExample id).1 rfl,
    (login_precondition_failure_behavior stLoaded "identity" RouterSignal.closed
      envExample id).2.1 skappExample rfl rfl,
    (login_precondition_failure_behavior stLoaded "identity" RouterSignal.closed
      envExample id).2.2 rfl⟩

/-- C4, counterexample.  A silent login whose preconditions pass but which
finds no stored provider rejects with the specific stored-provider-not-found
error, not with the single generic could-not-log-in-silently error. -/
theorem loginSilent_not_found_error_counterexample :
    (loginSilent stReady "identity").1
      = Except.error (JsError.error "Stored provider for dac identity not found")
    ∧ (loginSilent stReady "identity").1
        ≠ Except.error (JsError.error "Could not login silently") :=
  ⟨rfl, by decide⟩

/-- C4, amended.  After the already-loaded precondition passes, a failing
silent login retains no partial state and reports no error anywhere else
(unchanged state, empty effect trace), but the rejection is not the generic
error: a missing stored record yields a specific not-found error, and a
present record yields the `info.domain` `TypeError` before the provider is
ever contacted — the generic wrapping branch is unreachable. -/
theorem loginSilent_failure_modes (st : BridgeState) (n : String)
    (h : dacsGet st.dacs n = none) :
    (loginSilent st n).2.1 = st
    ∧ (loginSilent st n).2.2 = []
    ∧ (checkForStoredProvider st n = none →
        (loginSilent st n).1
          = Except.error (JsError.error ("Stored provider for dac " ++ n ++ " not found")))
    ∧ (∀ m, checkForStoredProvider st n = some m →
        (loginSilent st n).1
          = Except.error (JsError.typeError "Cannot read property domain of undefined"))
    ∧ ((loginSilent st n).1
          = Except.error (JsError.error ("Stored provider for dac " ++ n ++ " not found"))
        ∨ (loginSilent st n).1
          = Except.error (JsError.typeError "Cannot read property domain of undefined")) := by
  cases hc : checkForStoredProvider st n <;>
    simp [loginSilent, h, hc]

/-- C4, witness for the amended theorem at the ready state (no stored
record). -/
theorem loginSilent_failure_modes_witness :
    (loginSilent stReady "identity").2.1 = stReady
    ∧ (loginSilent stReady "identity").2.2 = []
    ∧ (checkForStoredProvider stReady "identity" = none →
        (loginSilent stReady "identity").1
          = Except.error
              (JsError.error ("Stored provider for dac " ++ "identity" ++ " not found")))
    ∧ (∀ m, checkForStoredProvider stReady "identity" = some m →
        (loginSilent stReady "identity").1
          = Except.error (JsError.typeError "Cannot read property domain of undefined"))
    ∧ ((loginSilent stReady "identity").1
          = Except.error
              (JsError.error ("Stored provider for dac " ++ "identity" ++ " not found"))
        ∨ (loginSilent stReady "identity").1
          = Except.error (JsError.typeError "Cannot read property domain of undefined")) :=
  loginSilent_failure_modes stReady "identity" rfl

/-- C7.  When the preconditions hold and the router-lifecycle listener
(`event-router`) settles before a provider address arrives, `loginPopup`
rejects with the closed-classified error, the state is unchanged, no message
is emitted, and the Frame Lifecycle Manager is never invoked: no provider
frame is created in that run. -/
theorem loginPopup_router_closed_no_frame (st : BridgeState) (n : String) (si : SkappInfo)
    (env : ProviderEnv) (g : String → String)
    (h1 : st.skappInfo = some si) (h2 : dacsGet st.dacs n = none) :
    loginPopup st n RouterSignal.closed env g
      = (Except.error (JsError.raw "Window was closed"), st, [])
    ∧ ∀ u, Effect.createFrame u ∉ (loginPopup st n RouterSignal.closed env g).2.2 := by
  have he : loginPopup st n RouterSignal.closed env g
      = (Except.error (JsError.raw "Window was closed"), st, []) := by
    simp [loginPopup, h1, h2]
  refine ⟨he, ?_⟩
  intro u hu
  rw [he] at hu
  exact List.not_mem_nil _ hu

/-- C7, witness at the ready state. -/
theorem loginPopup_router_closed_no_frame_witness :
    loginPopup stReady "identity" RouterSignal.closed envExample id
      = (Except.error (JsError.raw "Window was closed"), stReady, [])
    ∧ ∀ u, Effect.createFrame u
        ∉ (loginPopup stReady "identity" RouterSignal.closed envExample id).2.2 :=
  loginPopup_router_closed_no_frame stReady "identity" skappExample envExample id rfl rfl

/-- C9, counterexample.  The facade does not forward the argument list
unchanged: calling the method `identityMethod` with the single argument `42`
makes the provider receive the argument list wrapped in one extra array
layer (`[[42]]` rather than `[42]`). -/
theorem facadeCall_double_wrap_counterexample :
    (facadeCall stLoaded "identity" "identityMethod" [JsonValue.num 42] JsonValue.null).2
      = [Effect.remoteCall "call"
          [JsonValue.str "identityMethod", JsonValue.arr [JsonValue.arr [JsonValue.num 42]]]]
    ∧ (facadeCall stLoaded "identity" "identityMethod" [JsonValue.num 42] JsonValue.null).2
        ≠ [Effect.remoteCall "call"
            [JsonValue.str "identityMethod", JsonValue.arr [JsonValue.num 42]]] := by
  refine ⟨rfl, ?_⟩
  intro h
  rw [show (facadeCall stLoaded "identity" "identityMethod" [JsonValue.num 42] JsonValue.null).2
      = [Effect.remoteCall "call"
          [JsonValue.str "identityMethod",
            JsonValue.arr [JsonValue.arr [JsonValue.num 42]]]] from rfl] at h
  simp at h

/-- C9, amended.  For a connected interface, the facade forwards the method
name together with the argument list wrapped in one extra array layer to the
provider's remote call method; for an interface that is not connected it
rejects with the not-found error without contacting any provider. -/
theorem facadeCall_forwarding_behavior (st : BridgeState) (n : String) (method : String)
    (args : List JsonValue) (r : JsonValue) :
    ((dacsGet st.dacs n).isSome = true →
      (facadeCall st n method args r).1 = Except.ok r
      ∧ (facadeCall st n method args r).2
          = [Effect.remoteCall "call"
              [JsonValue.str method, JsonValue.arr [JsonValue.arr args]]])
    ∧ (dacsGet st.dacs n = none →
      (facadeCall st n method args r).1
          = Except.error (JsError.error ("Dac " ++ n ++ " not found"))
      ∧ (facadeCall st n method args r).2 = []) := by
  constructor
  · intro h
    obtain ⟨i, hi⟩ := Option.isSome_iff_exists.mp h
    simp [facadeCall, call, hi]
  · intro h
    simp [facadeCall, call, h]

/-- C9, witness for the amended theorem: the connected branch at the loaded
state and the rejecting branch at the ready state. -/
theorem facadeCall_forwarding_behavior_witness :
    ((facadeCall stLoaded "identity" "identityMethod" [JsonValue.num 42] JsonValue.null).1
        = Except.ok JsonValue.null
      ∧ (facadeCall stLoaded "identity" "identityMethod" [JsonValue.num 42] JsonValue.null).2
          = [Effect.remoteCall "call"
              [JsonValue.str "identityMethod",
                JsonValue.arr [JsonValue.arr [JsonValue.num 42]]]])
    ∧ ((facadeCall stReady "identity" "identityMethod" [JsonValue.num 42] JsonValue.null).1
        = Except.error (JsError.error ("Dac " ++ "identity" ++ " not found"))
      ∧ (facadeCall stReady "identity" "identityMethod" [JsonValue.num 42] JsonValue.null).2
          = []) :=
  ⟨(facadeCall_forwarding_behavior stLoaded "identity" "identityMethod"
      [JsonValue.num 42] JsonValue.null).1 rfl,
    (facadeCall_forwarding_behavior stReady "identity" "identityMethod"
      [JsonValue.num 42] JsonValue.null).2 rfl⟩
